import Mathlib

/-!
Verification of the print-app session/authentication core.

A shallow embedding of the repository's session protocol:

* `src/lib/auth/session.ts` (the unnamed `part_001` / `auth.ts` source): the
  Session Codec (`encryptSession` / `decryptSession`), virtual-user cookie
  management (`getVirtualUser`, `clearVirtualUser`, `setAuthError`, ...);
* `src/lib/auth/logto.ts`: the Identity Resolver (`getUser`, `getMockDevUser`)
  and lifecycle operations (`signOut`);
* `src/middleware.ts`: the Edge Gate (`verifySession`, `middleware`);
* `src/lib/auth/config.ts`: process-wide configuration defaults.

Modelling conventions:

* JSON payloads are association lists of string keys to `JVal` values; nested
  objects are one level deep (`JVal.obj` over leaves), which covers every
  payload this repository encodes (`userInfo` objects contain only leaves).
* The external `jose` library's HMAC is idealized as an unforgeable MAC: a
  signature is the pair (key, signed payload) and verification is equality.
  `jose.jwtVerify` is modelled as signature check plus registered `exp` claim
  validation (`exp`, when present, must be a number strictly greater than the
  current epoch-seconds time; a non-numeric `exp` is a validation failure).
  Exceptions thrown by `jose` are modelled as `Option.none` results.
* Time (`Date.now()` in seconds) is an explicit `Int` parameter `now`.
* `process.env` reads are fields of an explicit `Env` record; the JavaScript
  `process.env.X || 'default'` idiom (empty string counts as absent) is
  `envOr`.
* Cookie state is an explicit `CookieJar` record threaded through operations;
  stateful functions return their updated jar.  Calls to the opaque Logto
  provider client are modelled by a `ProviderResult` (or, for `handleSignOut`,
  an `Option String` that is `none` when the call throws) passed in as a
  parameter, together with a returned `Bool` flag recording whether the
  provider was actually consulted / whether an exception was raised.
* JavaScript truthiness and the number coercion in `exp < now` are modelled
  faithfully for booleans, numbers, `null` and non-numeric strings;
  numeric-string coercion is elided (no payload produced by this repository
  carries a string `exp`).
-/

namespace PrintApp

/-- JSON leaf values (string, number, boolean, null) as stored in JWT
payloads.  Numbers are modelled as integers (all numeric claims in this
repository are epoch timestamps). -/
inductive JLeaf where
  | jnull
  | jbool (b : Bool)
  | jnum (n : Int)
  | jstr (s : String)
deriving DecidableEq

/-- A JSON value: either a leaf or a one-level object of leaves.  This covers
every claims payload the repository encodes (`userInfo` is an object whose
fields are leaves). -/
inductive JVal where
  | leaf (l : JLeaf)
  | obj (fields : List (String × JLeaf))
deriving DecidableEq

/-- A claims mapping: the JWT payload, a JSON object of string keys. -/
abbrev Claims := List (String × JVal)

/-- JavaScript truthiness of a leaf value. -/
def JLeaf.truthy : JLeaf → Bool
  | .jnull => false
  | .jbool b => b
  | .jnum n => n != 0
  | .jstr s => s != ""

/-- JavaScript truthiness of a JSON value (objects are always truthy). -/
def JVal.truthy : JVal → Bool
  | .leaf l => l.truthy
  | .obj _ => true

/-- Property lookup on a claims object (JavaScript `data.k`): the value of
the first binding of key `k`, or `none` (undefined). -/
def lookupClaim : Claims → String → Option JVal
  | [], _ => none
  | (k', v) :: rest, k => if k' = k then some v else lookupClaim rest k

/-- Property lookup on a nested object's field list. -/
def lookupField : List (String × JLeaf) → String → Option JLeaf
  | [], _ => none
  | (k', v) :: rest, k => if k' = k then some v else lookupField rest k

/-- JavaScript property access `v.k` on a JSON value: `undefined` (`none`)
unless `v` is an object with field `k`. -/
def JVal.getField : JVal → String → Option JLeaf
  | .leaf _, _ => none
  | .obj fields, k => lookupField fields k

/-- JavaScript object property assignment `data[k] = v`: overwrite the
binding if the key exists, otherwise append it. -/
def setClaim (c : Claims) (k : String) (v : JVal) : Claims :=
  if c.any (fun kv => kv.1 == k) then
    c.map (fun kv => (kv.1, if kv.1 = k then v else kv.2))
  else c ++ [(k, v)]

/-- The JavaScript comparison `l < now` where `now` is a number: booleans
and `null` coerce to 0/1; non-numeric strings coerce to NaN, for which every
comparison is false (numeric-string coercion is elided — no payload of this
repository stores a string timestamp). -/
def JLeaf.jsLtInt : JLeaf → Int → Bool
  | .jnum v, now => decide (v < now)
  | .jbool true, now => decide ((1 : Int) < now)
  | .jbool false, now => decide ((0 : Int) < now)
  | .jstr _, _ => false
  | .jnull, now => decide ((0 : Int) < now)

-- ============================================
-- Idealized signed tokens (the `jose` library)
-- ============================================

/-- An idealized MAC signature: the signing key together with the signed
payload.  Verification against a key and payload is equality of both — an
unforgeable MAC. -/
structure Sig where
  key : String
  payload : Claims
deriving DecidableEq

/-- A token string on the wire: either a structurally well-formed JWT
(payload plus signature) or an unparseable string. -/
inductive Token where
  | jwt (payload : Claims) (sig : Sig)
  | malformed (raw : String)
deriving DecidableEq

/-- The `jose` registered-claim validation of `exp`: absent is fine; a numeric
`exp` must be strictly greater than the current time (clock tolerance 0); a
non-numeric `exp` is a claim-validation failure. -/
def jwtCheckExp (p : Claims) (now : Int) : Bool :=
  match lookupClaim p "exp" with
  | none => true
  | some (JVal.leaf (JLeaf.jnum e)) => decide (now < e)
  | some _ => false

/-- The call `jose.jwtVerify(token, secret)` at time `now`: `some payload` when the
token parses, its signature verifies under `secret` and its `exp` claim (if
present) has not passed; `none` models every thrown verification error. -/
def jwtVerify (secret : String) (now : Int) (t : Token) : Option Claims :=
  match t with
  | .malformed _ => none
  | .jwt p sig =>
    if sig = Sig.mk secret p then
      if jwtCheckExp p now then some p else none
    else none

-- ============================================
-- Configuration (src/lib/auth/config.ts, src/middleware.ts)
-- ============================================

/-- The process environment variables the auth core reads.  Read-only after
startup. -/
structure Env where
  logtoEnable : Option String
  logtoCookieSecret : Option String
  logtoBaseUrl : Option String
deriving DecidableEq

/-- The JavaScript `process.env.X || 'default'` idiom: the default applies
when the variable is unset or the empty string. -/
def envOr : Option String → String → String
  | none, d => d
  | some s, d => if s = "" then d else s

/-- The switch `shouldEnforceAuth()`: `process.env.LOGTO_ENABLE === 'true'`. -/
def shouldEnforceAuth (env : Env) : Bool :=
  decide (env.logtoEnable = some "true")

/-- The secret the Edge Gate (`src/middleware.ts` `verifySession`) verifies
with: `process.env.LOGTO_COOKIE_SECRET || 's3cr3t'`. -/
def edgeSecret (env : Env) : String :=
  envOr env.logtoCookieSecret "s3cr3t"

/-- The Session Codec's secret (`logtoConfig.cookieSecret`):
`process.env.LOGTO_COOKIE_SECRET || 's3cr3t-default-key-change-me'`. -/
def cookieSecret (env : Env) : String :=
  envOr env.logtoCookieSecret "s3cr3t-default-key-change-me"

/-- The configured `logtoConfig.baseUrl`: `process.env.LOGTO_BASE_URL || 'http://localhost:3000'`. -/
def baseUrl (env : Env) : String :=
  envOr env.logtoBaseUrl "http://localhost:3000"

-- ============================================
-- Session Codec (part_001: encryptSession / decryptSession)
-- ============================================

/-- Thirty days in seconds: the `'30d'` expiration `encryptSession` always sets. -/
def SECONDS_30_DAYS : Int := 2592000

/-- The payload `new SignJWT(data).setIssuedAt().setExpirationTime('30d')`
produces at time `now`: `data` with `iat = now` and `exp = now + 30d`
written over any existing bindings. -/
def jwtPayload (now : Int) (data : Claims) : Claims :=
  setClaim (setClaim data "iat" (JVal.leaf (JLeaf.jnum now)))
    "exp" (JVal.leaf (JLeaf.jnum (now + SECONDS_30_DAYS)))

/-- The codec's `encryptSession(data)`: sign the stamped payload with the configured
cookie secret (HS256, idealized MAC).  Note the time-to-live is the fixed
`'30d'` — the function takes no ttl parameter. -/
def encryptSession (env : Env) (now : Int) (data : Claims) : Token :=
  Token.jwt (jwtPayload now data) (Sig.mk (cookieSecret env) (jwtPayload now data))

/-- The codec's `decryptSession(token)`: `jwtVerify` under the configured cookie secret,
with every thrown error caught and turned into `null`. -/
def decryptSession (env : Env) (now : Int) (t : Token) : Option Claims :=
  jwtVerify (cookieSecret env) now t

-- ============================================
-- Cookie jar
-- ============================================

/-- A set cookie: its (token) value and its `maxAge` attribute in seconds.
The remaining attributes (httpOnly, path, sameSite, secure) are constants in
`cookieConfig` and play no role in the verified claims. -/
structure CookieEntry where
  value : Token
  maxAge : Int
deriving DecidableEq

/-- The client's cookie jar, restricted to the three cookies this core owns. -/
structure CookieJar where
  logtoSession : Option CookieEntry
  virtualUser : Option CookieEntry
  authError : Option CookieEntry
deriving DecidableEq

/-- The `cookieConfig.maxAge` constant: 30 days in seconds. -/
def COOKIE_MAX_AGE : Int := 2592000

/-- The operation `clearLogtoSession()`: delete the `logto_session` cookie. -/
def clearLogtoSession (jar : CookieJar) : CookieJar :=
  { jar with logtoSession := none }

/-- The operation `clearVirtualUser()`: delete the `virtual_user` cookie. -/
def clearVirtualUser (jar : CookieJar) : CookieJar :=
  { jar with virtualUser := none }

/-- The `auth_error` cookie `setAuthError(errorMessage)` writes: the
encryption of `{errorMessage}` (with the codec's fixed 30-day token expiry)
under a `maxAge` cookie attribute of 60 seconds. -/
def authErrorEntry (env : Env) (now : Int) (msg : String) : CookieEntry :=
  CookieEntry.mk (encryptSession env now [("errorMessage", JVal.leaf (JLeaf.jstr msg))]) 60

/-- The cookie-jar effect of `setAuthError`. -/
def setAuthError (env : Env) (now : Int) (msg : String) (jar : CookieJar) : CookieJar :=
  { jar with authError := some (authErrorEntry env now msg) }

-- ============================================
-- Virtual user (part_001: getVirtualUser)
-- ============================================

/-- The `VirtualUser` object `getVirtualUser` returns:
`{isAuthenticated: true, isVirtual: true, userInfo}`. -/
structure VirtualUser where
  isAuthenticated : Bool
  isVirtual : Bool
  userInfo : JVal
deriving DecidableEq

/-- Truthiness of a possibly-undefined value (JavaScript `!x` negated). -/
def truthyOpt : Option JVal → Bool
  | none => false
  | some v => v.truthy

/-- The expiry test in `getVirtualUser`:
`data.userInfo.exp && data.userInfo.exp < now` — truthy `exp` field whose
numeric coercion is below the current time. -/
def userInfoExpPast (ui : JVal) (now : Int) : Bool :=
  match ui.getField "exp" with
  | none => false
  | some l => l.truthy && l.jsLtInt now

/-- The resolver step `getVirtualUser()`: read the `virtual_user` cookie, decode it, validate
`isAuthenticated` / `userInfo` truthiness, delete the cookie and return null
when the embedded `userInfo.exp` has passed, otherwise return the virtual
identity.  Returns the result together with the updated cookie jar. -/
def getVirtualUser (env : Env) (now : Int) (jar : CookieJar) :
    Option VirtualUser × CookieJar :=
  match jar.virtualUser with
  | none => (none, jar)
  | some entry =>
    match decryptSession env now entry.value with
    | none => (none, jar)
    | some data =>
      if truthyOpt (lookupClaim data "isAuthenticated") = false then (none, jar)
      else
        match lookupClaim data "userInfo" with
        | none => (none, jar)
        | some ui =>
          if ui.truthy = false then (none, jar)
          else if userInfoExpPast ui now then (none, clearVirtualUser jar)
          else (some ⟨true, true, ui⟩, jar)

-- ============================================
-- Edge Gate (src/middleware.ts)
-- ============================================

/-- The per-cookie check `verifySession` applies to a cookie value:
`jwtVerify(value, LOGTO_COOKIE_SECRET || 's3cr3t')`, `true` on success,
`false` when it throws. -/
def verifyCookieToken (env : Env) (now : Int) (t : Token) : Bool :=
  (jwtVerify (edgeSecret env) now t).isSome

/-- The Edge Gate's `verifySession(request)`: try the `logto_session` cookie, then the
`virtual_user` cookie; `true` as soon as one verifies. -/
def verifySession (env : Env) (now : Int) (jar : CookieJar) : Bool :=
  (match jar.logtoSession with
   | some e => verifyCookieToken env now e.value
   | none => false) ||
  (match jar.virtualUser with
   | some e => verifyCookieToken env now e.value
   | none => false)

/-- JavaScript `s.startsWith(p)`. -/
def jsStartsWith (s p : String) : Bool :=
  p.toList.isPrefixOf s.toList

/-- Routes requiring authentication (`PROTECTED_ROUTES` in src/middleware.ts). -/
def PROTECTED_ROUTES : List String :=
  ["/chat", "/api/chat", "/api/deployments", "/api/upload"]

/-- Routes that always pass (`PUBLIC_ROUTES` in src/middleware.ts). -/
def PUBLIC_ROUTES : List String :=
  ["/api/auth", "/api/health", "/api/system", "/_next", "/favicon.ico"]

/-- The path classifier `matchesRoute(pathname, routes)`: some route is a string prefix of the
pathname. -/
def matchesRoute (pathname : String) (routes : List String) : Bool :=
  routes.any (fun route => jsStartsWith pathname route)

/-- Hex digit of a nibble, uppercase (as `URLSearchParams` percent-encodes). -/
def hexDigit (n : Nat) : Char :=
  if n < 10 then Char.ofNat (48 + n) else Char.ofNat (55 + n)

/-- Percent-encoding of one character as `URLSearchParams` serialization
performs for query values (ASCII scope, which covers the route paths here):
unreserved characters kept, everything else `%HH`. -/
def pctEncodeChar (c : Char) : String :=
  if c.isAlphanum || c = '-' || c = '.' || c = '_' || c = '~' then
    String.singleton c
  else
    "%" ++ String.singleton (hexDigit (c.toNat / 16 % 16)) ++
      String.singleton (hexDigit (c.toNat % 16))

/-- Percent-encoding of a query-parameter value. -/
def encodeQueryValue (s : String) : String :=
  String.join (s.toList.map pctEncodeChar)

/-- The middleware's possible responses.  The redirect location is kept as
path plus query (the scheme/host prefix `new URL(..., request.url)` copies
from the incoming request is elided). -/
inductive MwResponse where
  | next
  | unauthorizedJson (error message : String) (code status : Int)
  | redirect (location : String)
deriving DecidableEq

/-- The Edge Gate entry point `middleware(request)` from src/middleware.ts: public routes pass;
everything passes when enforcement is off; protected routes require
`verifySession`, failing which API paths get a 401 JSON response and page
paths a redirect to `/api/auth/sign-in` with `redirectTo` set to the
original pathname. -/
def middleware (env : Env) (now : Int) (jar : CookieJar) (pathname : String) :
    MwResponse :=
  if matchesRoute pathname PUBLIC_ROUTES then MwResponse.next
  else if shouldEnforceAuth env = false then MwResponse.next
  else if matchesRoute pathname PROTECTED_ROUTES then
    if verifySession env now jar = false then
      if jsStartsWith pathname "/api/" then
        MwResponse.unauthorizedJson "Unauthorized" "请先登录" 401 401
      else
        MwResponse.redirect ("/api/auth/sign-in?redirectTo=" ++ encodeQueryValue pathname)
    else MwResponse.next
  else MwResponse.next

-- ============================================
-- Identity Resolver (src/lib/auth/logto.ts)
-- ============================================

/-- The `AuthContext` shape `getUser` returns (absent optional fields are
the defaults). -/
structure AuthContext where
  isAuthenticated : Bool
  isMock : Bool := false
  isVirtual : Bool := false
  userInfo : Option JVal := none
  claims : Option JVal := none
deriving DecidableEq

/-- The mock tier `getMockDevUser()`: the fixed synthetic development identity, with
`exp`/`iat` stamped from the current time. -/
def getMockDevUser (now : Int) : AuthContext :=
  { isAuthenticated := true
    isMock := true
    userInfo := some (JVal.obj
      [("iss", JLeaf.jstr "https://mock.issuer.com"),
       ("sub", JLeaf.jstr "mock-user-id"),
       ("aud", JLeaf.jstr "mock-audience"),
       ("exp", JLeaf.jnum (now + 3600)),
       ("iat", JLeaf.jnum now),
       ("name", JLeaf.jstr "Mock User"),
       ("username", JLeaf.jstr "user"),
       ("email", JLeaf.jstr "mock@example.com")]) }

/-- The outcome of the opaque provider call
`logtoClient.getLogtoContext({fetchUserInfo: true})`: either a returned
context or a thrown exception. -/
inductive ProviderResult where
  | ok (isAuthenticated : Bool) (userInfo : Option JVal) (claims : Option JVal)
  | err
deriving DecidableEq

/-- The `{isAuthenticated: false}` context. -/
def unauthenticatedCtx : AuthContext :=
  { isAuthenticated := false }

/-- Whether a provider result passes `context.isAuthenticated && context.userInfo`. -/
def providerGivesAuth : ProviderResult → Bool
  | .ok true (some u) _ => u.truthy
  | _ => false

/-- The Identity Resolver `getUser()`: mock tier when enforcement is off, then the virtual-user
cookie, then the provider context (exceptions caught), else unauthenticated.
Returns the context, the updated cookie jar, and whether the provider was
consulted. -/
def getUser (env : Env) (now : Int) (provider : ProviderResult) (jar : CookieJar) :
    AuthContext × CookieJar × Bool :=
  if shouldEnforceAuth env = false then (getMockDevUser now, jar, false)
  else
    match getVirtualUser env now jar with
    | (some vu, jar') =>
      ({ isAuthenticated := vu.isAuthenticated, isVirtual := vu.isVirtual,
         userInfo := some vu.userInfo }, jar', false)
    | (none, jar') =>
      match provider with
      | .err => (unauthenticatedCtx, jar', true)
      | .ok isAuth ui cl =>
        match ui with
        | some u =>
          if isAuth && u.truthy then
            ({ isAuthenticated := true, userInfo := some u, claims := cl }, jar', true)
          else (unauthenticatedCtx, jar', true)
        | none => (unauthenticatedCtx, jar', true)

-- ============================================
-- Session Lifecycle (src/lib/auth/logto.ts: signOut)
-- ============================================

/-- A lifecycle operation's HTTP response (these operations only redirect). -/
inductive AuthResponse where
  | redirect (url : String)
deriving DecidableEq

/-- The non-virtual branch of `signOut`: clear the `logto_session` cookie,
then ask the provider for a sign-out URL (`none` models
`logtoClient.handleSignOut` throwing); on a throw the catch block clears
both session cookies and redirects to the base URL.  The third component
records whether an exception was raised. -/
def signOutLogto (env : Env) (providerSignOutUrl : Option String) (jar : CookieJar) :
    AuthResponse × CookieJar × Bool :=
  let jar₂ := clearLogtoSession jar
  match providerSignOutUrl with
  | some url => (AuthResponse.redirect url, jar₂, false)
  | none =>
    (AuthResponse.redirect (baseUrl env), clearVirtualUser (clearLogtoSession jar₂), true)

/-- The lifecycle operation `signOut()`: a virtual session only clears the `virtual_user` cookie and
redirects to the base URL (the provider is never contacted); otherwise the
Logto branch runs. -/
def signOut (env : Env) (now : Int) (providerSignOutUrl : Option String) (jar : CookieJar) :
    AuthResponse × CookieJar × Bool :=
  match getVirtualUser env now jar with
  | (some vu, jar₁) =>
    if vu.isVirtual then (AuthResponse.redirect (baseUrl env), clearVirtualUser jar₁, false)
    else signOutLogto env providerSignOutUrl jar₁
  | (none, jar₁) => signOutLogto env providerSignOutUrl jar₁

-- ============================================
-- Spec-side helper definitions
-- ============================================

/-- Whether a key is neither `iat` nor `exp` (survives the "modulo iat/exp"
comparison). -/
def keepClaimKey (s : String) : Bool :=
  !(s == "iat" || s == "exp")

/-- Drop the `iat` and `exp` bindings of a claims mapping (the "modulo added
iat/exp fields" comparison of the round-trip property). -/
def stripIatExp (c : Claims) : Claims :=
  c.filter (fun kv => keepClaimKey kv.1)

/-- Drop the `iat` and `exp` fields of a JSON object (identity on leaves):
used to compare identities up to their timestamps. -/
def stripTimeFields : JVal → JVal
  | .obj fields => .obj (fields.filter (fun kv => keepClaimKey kv.1))
  | v => v

/-- The condition under which `getVirtualUser` deletes the `virtual_user`
cookie: the cookie is present, its token decodes, the payload's
`isAuthenticated` and `userInfo` are truthy, and the embedded
`userInfo.exp` is truthy and past. -/
def vuDeleteCond (env : Env) (now : Int) (jar : CookieJar) : Bool :=
  match jar.virtualUser with
  | none => false
  | some entry =>
    match decryptSession env now entry.value with
    | none => false
    | some data =>
      truthyOpt (lookupClaim data "isAuthenticated") &&
      (match lookupClaim data "userInfo" with
       | none => false
       | some ui => ui.truthy && userInfoExpPast ui now)


-- ============================================
-- Association-list lemmas
-- ============================================

theorem lookupClaim_map_overwrite_self (k : String) (v : JVal) :
    ∀ c : Claims, c.any (fun kv => kv.1 == k) = true →
      lookupClaim (c.map (fun kv => (kv.1, if kv.1 = k then v else kv.2))) k = some v := by
  intro c
  induction c with
  | nil => simp
  | cons hd tl ih =>
    obtain ⟨k₁, v₁⟩ := hd
    intro hany
    by_cases hk : k₁ = k
    · simp [lookupClaim, hk]
    · have htl : tl.any (fun kv => kv.1 == k) = true := by
        simpa [hk] using hany
      simp [lookupClaim, hk, ih htl]

theorem lookupClaim_map_overwrite_ne (k k' : String) (v : JVal) (h : k' ≠ k) :
    ∀ c : Claims,
      lookupClaim (c.map (fun kv => (kv.1, if kv.1 = k then v else kv.2))) k' = lookupClaim c k' := by
  intro c
  induction c with
  | nil => rfl
  | cons hd tl ih =>
    obtain ⟨k₁, v₁⟩ := hd
    by_cases hh : k₁ = k'
    · have hk : ¬(k₁ = k) := by
        rw [hh]; exact h
      simp [lookupClaim, hh, hk, h]
    · simp [lookupClaim, hh, ih]

theorem lookupClaim_append_right (k : String) (v : JVal) :
    ∀ c : Claims, c.any (fun kv => kv.1 == k) = false →
      lookupClaim (c ++ [(k, v)]) k = some v := by
  intro c
  induction c with
  | nil => simp [lookupClaim]
  | cons hd tl ih =>
    obtain ⟨k₁, v₁⟩ := hd
    intro hany
    rw [List.any_cons, Bool.or_eq_false_iff] at hany
    have h1 : ¬(k₁ = k) := by simpa using hany.1
    simp [lookupClaim, h1, ih hany.2]

theorem lookupClaim_append_ne (k k' : String) (v : JVal) (h : k' ≠ k) :
    ∀ c : Claims, lookupClaim (c ++ [(k, v)]) k' = lookupClaim c k' := by
  intro c
  induction c with
  | nil => simp [lookupClaim, Ne.symm h]
  | cons hd tl ih =>
    obtain ⟨k₁, v₁⟩ := hd
    by_cases hh : k₁ = k'
    · simp [lookupClaim, hh]
    · simp [lookupClaim, hh, ih]

theorem lookupClaim_setClaim_self (k : String) (v : JVal) (c : Claims) :
    lookupClaim (setClaim c k v) k = some v := by
  unfold setClaim
  by_cases hany : c.any (fun kv => kv.1 == k) = true
  · simp only [hany, if_true]
    exact lookupClaim_map_overwrite_self k v c hany
  · simp only [hany, if_false]
    exact lookupClaim_append_right k v c (by simpa only [Bool.not_eq_true] using hany)

theorem lookupClaim_setClaim_ne (k k' : String) (v : JVal) (h : k' ≠ k) (c : Claims) :
    lookupClaim (setClaim c k v) k' = lookupClaim c k' := by
  unfold setClaim
  by_cases hany : c.any (fun kv => kv.1 == k) = true
  · simp only [hany, if_true]
    exact lookupClaim_map_overwrite_ne k k' v h c
  · simp only [hany, if_false]
    exact lookupClaim_append_ne k k' v h c

theorem filter_keep_map_overwrite (k : String) (v : JVal) (h : keepClaimKey k = false) :
    ∀ c : Claims,
      (c.map (fun kv => (kv.1, if kv.1 = k then v else kv.2))).filter (fun kv => keepClaimKey kv.1)
        = c.filter (fun kv => keepClaimKey kv.1) := by
  intro c
  induction c with
  | nil => rfl
  | cons hd tl ih =>
    obtain ⟨k₁, v₁⟩ := hd
    by_cases hk : k₁ = k
    · simp [List.filter_cons, hk, h, ih]
    · simp [List.filter_cons, hk, ih]

theorem filter_keep_append (k : String) (v : JVal) (h : keepClaimKey k = false) (c : Claims) :
    (c ++ [(k, v)]).filter (fun kv => keepClaimKey kv.1) = c.filter (fun kv => keepClaimKey kv.1) := by
  rw [List.filter_append]
  simp [List.filter_cons, h]

theorem stripIatExp_setClaim (k : String) (v : JVal) (c : Claims) (h : keepClaimKey k = false) :
    stripIatExp (setClaim c k v) = stripIatExp c := by
  unfold stripIatExp setClaim
  by_cases hany : c.any (fun kv => kv.1 == k) = true
  · simp only [hany, if_true]
    exact filter_keep_map_overwrite k v h c
  · simp only [hany, if_false]
    exact filter_keep_append k v h c

theorem stripIatExp_jwtPayload (now : Int) (data : Claims) :
    stripIatExp (jwtPayload now data) = stripIatExp data := by
  unfold jwtPayload
  rw [stripIatExp_setClaim _ _ _ (by decide), stripIatExp_setClaim _ _ _ (by decide)]

-- ============================================
-- Concrete fixtures used by witnesses and counterexamples
-- ============================================

/-- A configuration with enforcement on and the cookie secret set to `k`. -/
def envOn : Env := Env.mk (some "true") (some "k") none

/-- A configuration with no auth-related environment variables set. -/
def envOff : Env := Env.mk none none none

/-- A configuration with enforcement on but `LOGTO_COOKIE_SECRET` unset. -/
def envNoSecret : Env := Env.mk (some "true") none none

/-- An empty cookie jar. -/
def emptyJar : CookieJar := CookieJar.mk none none none

/-- Sample claims data. -/
def dataW : Claims :=
  [("isAuthenticated", JVal.leaf (JLeaf.jbool true)),
   ("userInfo", JVal.obj [("sub", JLeaf.jstr "u1")])]

/-- A payload whose envelope `exp` has already passed at any `now ≥ 0`. -/
def expiredClaimsW : Claims := [("exp", JVal.leaf (JLeaf.jnum (-1)))]

/-- A token correctly signed under the codec's fallback secret. -/
def tokenSignedWithCodecDefault : Token :=
  Token.jwt [] (Sig.mk "s3cr3t-default-key-change-me" [])

-- ============================================
-- C2: round-trip
-- ============================================

/-- C2: decoding an encoded token before its expiry returns the stamped
payload, which agrees with the original claims on every key other than the
added `iat` and `exp`: `decode(encode(claims))` equals `claims` modulo
`iat`/`exp`, for the codec's (positive, 30-day) time-to-live, at any decode
time before the token's expiry. -/
theorem roundtrip_decode_encode (env : Env) (data : Claims) (t td : Int)
    (h : td < t + SECONDS_30_DAYS) :
    decryptSession env td (encryptSession env t data) = some (jwtPayload t data) ∧
    stripIatExp (jwtPayload t data) = stripIatExp data := by
  constructor
  · have hexp : lookupClaim (jwtPayload t data) "exp"
        = some (JVal.leaf (JLeaf.jnum (t + SECONDS_30_DAYS))) := by
      unfold jwtPayload
      exact lookupClaim_setClaim_self _ _ _
    have hchk : jwtCheckExp (jwtPayload t data) td = true := by
      unfold jwtCheckExp
      rw [hexp]
      simpa using h
    simp [decryptSession, encryptSession, jwtVerify, hchk]
  · exact stripIatExp_jwtPayload t data

/-- Witness for C2 at concrete inputs. -/
theorem roundtrip_decode_encode_witness :
    decryptSession envOn 5 (encryptSession envOn 0 dataW) = some (jwtPayload 0 dataW) ∧
    stripIatExp (jwtPayload 0 dataW) = stripIatExp dataW :=
  roundtrip_decode_encode envOn dataW 0 5 (by decide)

-- ============================================
-- C5: decode fails closed to null
-- ============================================

/-- C5: `decryptSession` returns `null` — and, its return type being an
option rather than an exception, never raises — on every verification
failure: malformed input, wrong signature, and failed `exp` validation
(expired token) all produce exactly the same `none`. -/
theorem decode_fail_closed (env : Env) (now : Int) :
    (∀ raw : String, decryptSession env now (Token.malformed raw) = none) ∧
    (∀ (p : Claims) (sg : Sig), sg ≠ Sig.mk (cookieSecret env) p →
      decryptSession env now (Token.jwt p sg) = none) ∧
    (∀ p : Claims, jwtCheckExp p now = false →
      decryptSession env now (Token.jwt p (Sig.mk (cookieSecret env) p)) = none) := by
  refine ⟨fun raw => rfl, fun p sg hs => ?_, fun p hc => ?_⟩
  · simp [decryptSession, jwtVerify, hs]
  · simp [decryptSession, jwtVerify, hc]

/-- Witness for C5: a malformed token, a wrongly signed token and an expired
token each decode to `none`. -/
theorem decode_fail_closed_witness :
    decryptSession envOn 0 (Token.malformed "garbage") = none ∧
    decryptSession envOn 0 (Token.jwt [] (Sig.mk "wrong-secret" [])) = none ∧
    decryptSession envOn 0 (Token.jwt expiredClaimsW (Sig.mk "k" expiredClaimsW)) = none := by
  refine ⟨(decode_fail_closed envOn 0).1 "garbage", ?_, ?_⟩
  · exact (decode_fail_closed envOn 0).2.1 [] (Sig.mk "wrong-secret" []) (by decide)
  · exact (decode_fail_closed envOn 0).2.2 expiredClaimsW (by decide)

-- ============================================
-- C6: token expiry stamping
-- ============================================

/-- C6 counterexample: the token `setAuthError` stores at time 1000 carries
embedded expiry 2593000 = 1000 + 30 days, not 1000 + 60 seconds — the
claimed 60-second embedded expiry for error claims is false (60 seconds is
only the cookie's `maxAge` attribute). -/
theorem authError_token_expiry_cex :
    (match (setAuthError envOn 1000 "boom" emptyJar).authError with
     | some e =>
       match e.value with
       | Token.jwt p _ => lookupClaim p "exp"
       | Token.malformed _ => none
     | none => none) = some (JVal.leaf (JLeaf.jnum 2593000)) ∧
    (2593000 : Int) ≠ 1000 + 60 := by
  constructor
  · decide
  · decide

/-- C6 amended: `encryptSession` attaches issued-at = now and expiry =
now + 30 days unconditionally (it has no ttl parameter); `setAuthError`
stores such a 30-day token but limits the error cookie's lifetime through
its `maxAge` attribute of 60 seconds. -/
theorem encode_fixed_expiry_and_error_cookie (env : Env) (now : Int) (data : Claims)
    (msg : String) (jar : CookieJar) :
    lookupClaim (jwtPayload now data) "iat" = some (JVal.leaf (JLeaf.jnum now)) ∧
    lookupClaim (jwtPayload now data) "exp"
      = some (JVal.leaf (JLeaf.jnum (now + SECONDS_30_DAYS))) ∧
    encryptSession env now data
      = Token.jwt (jwtPayload now data) (Sig.mk (cookieSecret env) (jwtPayload now data)) ∧
    (setAuthError env now msg jar).authError = some (authErrorEntry env now msg) ∧
    (authErrorEntry env now msg).maxAge = 60 ∧
    (authErrorEntry env now msg).value
      = encryptSession env now [("errorMessage", JVal.leaf (JLeaf.jstr msg))] := by
  refine ⟨?_, ?_, rfl, rfl, rfl, rfl⟩
  · unfold jwtPayload
    rw [lookupClaim_setClaim_ne "exp" "iat" _ (by decide)]
    exact lookupClaim_setClaim_self _ _ _
  · unfold jwtPayload
    exact lookupClaim_setClaim_self _ _ _

-- ============================================
-- C1: edge check vs codec decode
-- ============================================

/-- C1 counterexample: with `LOGTO_COOKIE_SECRET` unset, the Edge Gate
verifies under its fallback secret `s3cr3t` while the codec decodes under
`s3cr3t-default-key-change-me`; a token signed with the codec's fallback
decodes to non-null yet fails the edge per-cookie check, refuting the
claimed equivalence for every process configuration. -/
theorem edge_codec_secret_mismatch_cex :
    ¬((verifyCookieToken envNoSecret 0 tokenSignedWithCodecDefault = true) ↔
      (decryptSession envNoSecret 0 tokenSignedWithCodecDefault).isSome = true) := by
  decide

/-- C1 amended: whenever the `LOGTO_COOKIE_SECRET` environment variable is
set (to a nonempty string), the Edge Gate's per-cookie verification succeeds
exactly when the Session Codec's decode of the same token returns non-null;
with it unset the two fallback secrets differ and the equivalence fails. -/
theorem edge_check_iff_decode_when_secret_set (env : Env) (now : Int) (t : Token)
    (s : String) (hs : env.logtoCookieSecret = some s) (hns : s ≠ "") :
    verifyCookieToken env now t = true ↔ (decryptSession env now t).isSome = true := by
  have he : edgeSecret env = cookieSecret env := by
    unfold edgeSecret cookieSecret envOr
    rw [hs]
    simp [hns]
  unfold verifyCookieToken decryptSession
  rw [he]

/-- Witness for the amended C1 at a concrete configuration and token. -/
theorem edge_check_iff_decode_witness :
    verifyCookieToken envOn 3 (Token.jwt [] (Sig.mk "k" [])) = true ↔
    (decryptSession envOn 3 (Token.jwt [] (Sig.mk "k" []))).isSome = true :=
  edge_check_iff_decode_when_secret_set envOn 3 (Token.jwt [] (Sig.mk "k" [])) "k" rfl
    (by decide)

-- ============================================
-- More fixtures: valid and expired virtual-user cookies
-- ============================================

/-- A user-info object with a far-future expiry. -/
def uiW : JVal := JVal.obj [("sub", JLeaf.jstr "u1"), ("exp", JLeaf.jnum 9999)]

/-- A well-formed virtual-user payload embedding `uiW`. -/
def vuPayloadW : Claims :=
  [("isAuthenticated", JVal.leaf (JLeaf.jbool true)),
   ("isVirtual", JVal.leaf (JLeaf.jbool true)),
   ("userInfo", uiW),
   ("lastVerified", JVal.leaf (JLeaf.jnum 5))]

/-- The virtual-user cookie token, signed with the configured secret `k`. -/
def vuTokenW : Token := Token.jwt vuPayloadW (Sig.mk "k" vuPayloadW)

/-- A well-formed provider-session payload. -/
def logtoPayloadW : Claims := [("isAuthenticated", JVal.leaf (JLeaf.jbool true))]

/-- The provider-session cookie token, signed with the configured secret. -/
def logtoTokenW : Token := Token.jwt logtoPayloadW (Sig.mk "k" logtoPayloadW)

/-- A jar holding both a valid provider-session cookie and a valid
virtual-user cookie. -/
def bothJarW : CookieJar :=
  CookieJar.mk (some (CookieEntry.mk logtoTokenW 2592000))
    (some (CookieEntry.mk vuTokenW 2592000)) none

/-- A provider context reporting an authenticated user. -/
def provOkW : ProviderResult :=
  ProviderResult.ok true (some (JVal.obj [("sub", JLeaf.jstr "p1")])) none

/-- A user-info object whose `exp` (50) is in the past at `now = 100`. -/
def uiExpiredW : JVal := JVal.obj [("sub", JLeaf.jstr "u1"), ("exp", JLeaf.jnum 50)]

/-- A virtual-user payload embedding the expired `uiExpiredW`. -/
def vuExpiredPayloadW : Claims :=
  [("isAuthenticated", JVal.leaf (JLeaf.jbool true)),
   ("isVirtual", JVal.leaf (JLeaf.jbool true)),
   ("userInfo", uiExpiredW)]

/-- The expired virtual-user cookie token, correctly signed. -/
def vuExpiredTokenW : Token := Token.jwt vuExpiredPayloadW (Sig.mk "k" vuExpiredPayloadW)

/-- A jar holding only the expired virtual-user cookie. -/
def expiredJarW : CookieJar :=
  CookieJar.mk none (some (CookieEntry.mk vuExpiredTokenW 2592000)) none

-- ============================================
-- C3: virtual identity has priority over the provider
-- ============================================

/-- C3: with enforcement on, whenever the virtual-user cookie resolves to a
virtual identity, `getUser` returns that Virtual identity for every possible
provider state, and the provider is never consulted (third component
`false`) — so no provider lookup determines the result. -/
theorem virtual_priority_over_provider (env : Env) (now : Int) (jar jar₂ : CookieJar)
    (vu : VirtualUser) (prov : ProviderResult)
    (henf : shouldEnforceAuth env = true)
    (hvu : getVirtualUser env now jar = (some vu, jar₂)) :
    getUser env now prov jar =
      ({ isAuthenticated := vu.isAuthenticated, isVirtual := vu.isVirtual,
         userInfo := some vu.userInfo }, jar₂, false) := by
  simp [getUser, henf, hvu]

/-- Witness for C3: both a valid virtual-user cookie and a valid provider
session are present; the Virtual identity wins and the provider flag is
`false`. -/
theorem virtual_priority_witness :
    getUser envOn 100 provOkW bothJarW =
      ({ isAuthenticated := true, isVirtual := true, userInfo := some uiW },
        bothJarW, false) :=
  virtual_priority_over_provider envOn 100 bothJarW bothJarW
    (VirtualUser.mk true true uiW) provOkW (by decide) (by decide)

-- ============================================
-- C4: mock tier when enforcement is off
-- ============================================

/-- C4 counterexample: with enforcement off, two runs of `getUser` under the
same configuration and identical request state but at different times return
different results (the mock identity's `iat`/`exp` are stamped from the
clock), refuting "two runs yield identical results". -/
theorem mock_varies_with_time_cex :
    (getUser envOff 0 ProviderResult.err emptyJar).1 ≠
      (getUser envOff 1 ProviderResult.err emptyJar).1 := by
  decide

/-- C4 amended: with enforcement off, `getUser` returns the Mock identity
with the cookie jar untouched and no provider call; at any fixed time the
result is identical regardless of cookie and provider state; and the mock
identity is constant over time except for its `iat`/`exp` timestamps. -/
theorem mock_when_enforcement_off (env : Env) (now : Int) (prov prov' : ProviderResult)
    (jar jar' : CookieJar) (h : shouldEnforceAuth env = false) :
    getUser env now prov jar = (getMockDevUser now, jar, false) ∧
    (getUser env now prov jar).1 = (getUser env now prov' jar').1 ∧
    Option.map stripTimeFields (getMockDevUser now).userInfo
      = Option.map stripTimeFields (getMockDevUser 0).userInfo := by
  refine ⟨?_, ?_, rfl⟩
  · simp [getUser, h]
  · simp [getUser, h]

/-- Witness for the amended C4 at concrete inputs. -/
theorem mock_when_enforcement_off_witness :
    getUser envOff 7 ProviderResult.err emptyJar = (getMockDevUser 7, emptyJar, false) :=
  (mock_when_enforcement_off envOff 7 ProviderResult.err ProviderResult.err
    emptyJar emptyJar (by decide)).1

-- ============================================
-- C7: expired virtual session cleans itself up
-- ============================================

/-- C7: with enforcement on, a virtual-user cookie whose token decodes
successfully with truthy `isAuthenticated`/`userInfo` but whose embedded
`userInfo.exp` is nonzero and in the past makes `getUser` (with no
authenticated provider session) return the unauthenticated context and
delete the virtual-user cookie in the same resolution pass. -/
theorem expired_virtual_cleanup (env : Env) (now : Int) (jar : CookieJar)
    (e : CookieEntry) (p : Claims) (ui : JVal) (ev : Int) (prov : ProviderResult)
    (henf : shouldEnforceAuth env = true)
    (hcookie : jar.virtualUser = some e)
    (hdec : decryptSession env now e.value = some p)
    (hauth : truthyOpt (lookupClaim p "isAuthenticated") = true)
    (hui : lookupClaim p "userInfo" = some ui)
    (huit : ui.truthy = true)
    (hexp : ui.getField "exp" = some (JLeaf.jnum ev))
    (hnz : ev ≠ 0)
    (hpast : ev < now)
    (hprov : providerGivesAuth prov = false) :
    getUser env now prov jar = (unauthenticatedCtx, clearVirtualUser jar, true) := by
  have hpastb : userInfoExpPast ui now = true := by
    unfold userInfoExpPast
    rw [hexp]
    simp [JLeaf.truthy, JLeaf.jsLtInt, hnz, hpast]
  have hgv : getVirtualUser env now jar = (none, clearVirtualUser jar) := by
    unfold getVirtualUser
    rw [hcookie]
    simp [hdec, hauth, hui, huit, hpastb]
  unfold getUser
  simp only [henf]
  rw [hgv]
  cases prov with
  | err => simp
  | ok a ui2 cl =>
    cases ui2 with
    | none => simp
    | some u =>
      have hfalse : (a && u.truthy) = false := by
        cases a
        · simp
        · simpa [providerGivesAuth] using hprov
      simp [hfalse]

/-- Witness for C7: the expired virtual-user cookie at time 100 with an
unauthenticated provider. -/
theorem expired_virtual_cleanup_witness :
    getUser envOn 100 (ProviderResult.ok false none none) expiredJarW =
      (unauthenticatedCtx, clearVirtualUser expiredJarW, true) :=
  expired_virtual_cleanup envOn 100 expiredJarW (CookieEntry.mk vuExpiredTokenW 2592000)
    vuExpiredPayloadW uiExpiredW 50 (ProviderResult.ok false none none)
    (by decide) (by decide) (by decide) (by decide) (by decide) (by decide)
    (by decide) (by decide) (by decide) (by decide)

-- ============================================
-- C9: signOut clears both cookies on failure
-- ============================================

/-- C9: whenever an exception is raised during `signOut` (the provider's
sign-out-URL construction throwing, modelled by the `none` argument), both
the provider-session and virtual-user cookies are deleted in the resulting
jar and the response is a redirect to the base URL; moreover the exception
does occur whenever no virtual session is found (so the provider call is
reached). -/
theorem signout_clears_on_throw (env : Env) (now : Int) (jar : CookieJar) :
    ((signOut env now none jar).2.2 = true →
      (signOut env now none jar).2.1.logtoSession = none ∧
      (signOut env now none jar).2.1.virtualUser = none ∧
      (signOut env now none jar).1 = AuthResponse.redirect (baseUrl env)) ∧
    ((getVirtualUser env now jar).1 = none → (signOut env now none jar).2.2 = true) := by
  rcases hgv : getVirtualUser env now jar with ⟨r, jar₁⟩
  cases r with
  | none =>
    constructor
    · intro _
      simp [signOut, hgv, signOutLogto, clearLogtoSession, clearVirtualUser]
    · intro _
      simp [signOut, hgv, signOutLogto]
  | some vu =>
    constructor
    · intro hthrew
      by_cases hv : vu.isVirtual = true
      · rw [signOut, hgv] at hthrew
        simp [hv] at hthrew
      · simp [signOut, hgv, hv, signOutLogto, clearLogtoSession, clearVirtualUser]
    · intro habs
      simp at habs

/-- Witness for C9: provider sign-out throws with no virtual session; both
cookies end up absent and the response redirects to the base URL. -/
theorem signout_clears_on_throw_witness :
    (signOut envOn 0 none emptyJar).2.1.logtoSession = none ∧
    (signOut envOn 0 none emptyJar).2.1.virtualUser = none ∧
    (signOut envOn 0 none emptyJar).1 = AuthResponse.redirect (baseUrl envOn) :=
  (signout_clears_on_throw envOn 0 emptyJar).1 (by decide)

-- ============================================
-- C10: deletion frame of getVirtualUser
-- ============================================

/-- C10: `getVirtualUser` changes the cookie jar only by deleting the
`virtual_user` cookie, and does so exactly when the cookie is present, its
token decodes, the payload's `isAuthenticated` and `userInfo` are truthy and
the embedded `userInfo.exp` is truthy (nonzero) and past; in every
enumerated failing case — cookie absent, decode failure (malformed, wrong
signature or envelope-expired token), payload missing `isAuthenticated` or
`userInfo` — it returns `none` with the jar unchanged, and when the rest is
valid but `exp` fails the truthy-and-past test (absent, zero, or not in the
past) it returns the virtual identity with the jar unchanged. -/
theorem getVirtualUser_delete_frame (env : Env) (now : Int) (jar : CookieJar) :
    ((getVirtualUser env now jar).2
      = (if vuDeleteCond env now jar = true then clearVirtualUser jar else jar)) ∧
    (vuDeleteCond env now jar = true →
      (getVirtualUser env now jar).1 = none ∧ jar.virtualUser ≠ none) ∧
    (jar.virtualUser = none → (getVirtualUser env now jar).1 = none) ∧
    (∀ e, jar.virtualUser = some e → decryptSession env now e.value = none →
      (getVirtualUser env now jar).1 = none) ∧
    (∀ e p, jar.virtualUser = some e → decryptSession env now e.value = some p →
      truthyOpt (lookupClaim p "isAuthenticated") = false ∨
        truthyOpt (lookupClaim p "userInfo") = false →
      (getVirtualUser env now jar).1 = none) ∧
    (∀ e p ui, jar.virtualUser = some e → decryptSession env now e.value = some p →
      truthyOpt (lookupClaim p "isAuthenticated") = true →
      lookupClaim p "userInfo" = some ui → ui.truthy = true →
      userInfoExpPast ui now = false →
      (getVirtualUser env now jar).1 = some (VirtualUser.mk true true ui)) := by
  cases hvu : jar.virtualUser with
  | none =>
    refine ⟨?_, ?_, ?_, ?_, ?_, ?_⟩
    · simp [getVirtualUser, vuDeleteCond, hvu]
    · intro h
      simp [vuDeleteCond, hvu] at h
    · intro _
      simp [getVirtualUser, hvu]
    · intro e he hd
      simp [getVirtualUser, hvu]
    · intro e p he hd hfail
      simp [getVirtualUser, hvu]
    · intro e p ui he hd h1 h2 h3 h4
      simp at he
  | some entry =>
    cases hdec : decryptSession env now entry.value with
    | none =>
      refine ⟨?_, ?_, ?_, ?_, ?_, ?_⟩
      · simp [getVirtualUser, vuDeleteCond, hvu, hdec]
      · intro h
        simp [vuDeleteCond, hvu, hdec] at h
      · intro h
        simp at h
      · intro e he hd
        simp [getVirtualUser, hvu, hdec]
      · intro e p he hd hfail
        simp [getVirtualUser, hvu, hdec]
      · intro e p ui he hd h1 h2 h3 h4
        obtain rfl : entry = e := by injection he
        rw [hdec] at hd
        cases hd
    | some data =>
      cases hauth : truthyOpt (lookupClaim data "isAuthenticated") with
      | false =>
        refine ⟨?_, ?_, ?_, ?_, ?_, ?_⟩
        · simp [getVirtualUser, vuDeleteCond, hvu, hdec, hauth]
        · intro h
          simp [vuDeleteCond, hvu, hdec, hauth] at h
        · intro h
          simp at h
        · intro e he hd
          simp [getVirtualUser, hvu, hdec, hauth]
        · intro e p he hd hfail
          simp [getVirtualUser, hvu, hdec, hauth]
        · intro e p ui he hd h1 h2 h3 h4
          obtain rfl : entry = e := by injection he
          rw [hdec] at hd
          obtain rfl : data = p := by injection hd
          rw [h1] at hauth
          cases hauth
      | true =>
        cases hui : lookupClaim data "userInfo" with
        | none =>
          refine ⟨?_, ?_, ?_, ?_, ?_, ?_⟩
          · simp [getVirtualUser, vuDeleteCond, hvu, hdec, hauth, hui]
          · intro h
            simp [vuDeleteCond, hvu, hdec, hauth, hui] at h
          · intro h
            simp at h
          · intro e he hd
            simp [getVirtualUser, hvu, hdec, hauth, hui]
          · intro e p he hd hfail
            simp [getVirtualUser, hvu, hdec, hauth, hui]
          · intro e p ui he hd h1 h2 h3 h4
            obtain rfl : entry = e := by injection he
            rw [hdec] at hd
            obtain rfl : data = p := by injection hd
            rw [h2] at hui
            cases hui
        | some ui₀ =>
          cases huit : ui₀.truthy with
          | false =>
            refine ⟨?_, ?_, ?_, ?_, ?_, ?_⟩
            · simp [getVirtualUser, vuDeleteCond, hvu, hdec, hauth, hui, huit]
            · intro h
              simp [vuDeleteCond, hvu, hdec, hauth, hui, huit] at h
            · intro h
              simp at h
            · intro e he hd
              simp [getVirtualUser, hvu, hdec, hauth, hui, huit]
            · intro e p he hd hfail
              simp [getVirtualUser, hvu, hdec, hauth, hui, huit]
            · intro e p ui he hd h1 h2 h3 h4
              obtain rfl : entry = e := by injection he
              rw [hdec] at hd
              obtain rfl : data = p := by injection hd
              rw [h2] at hui
              obtain rfl : ui = ui₀ := by injection hui
              rw [h3] at huit
              cases huit
          | true =>
            cases hpast : userInfoExpPast ui₀ now with
            | true =>
              refine ⟨?_, ?_, ?_, ?_, ?_, ?_⟩
              · simp [getVirtualUser, vuDeleteCond, hvu, hdec, hauth, hui, huit, hpast]
              · intro _
                constructor
                · simp [getVirtualUser, hvu, hdec, hauth, hui, huit, hpast]
                · simp [hvu]
              · intro h
                simp at h
              · intro e he hd
                simp [getVirtualUser, hvu, hdec, hauth, hui, huit, hpast]
              · intro e p he hd hfail
                simp [getVirtualUser, hvu, hdec, hauth, hui, huit, hpast]
              · intro e p ui he hd h1 h2 h3 h4
                obtain rfl : entry = e := by injection he
                rw [hdec] at hd
                obtain rfl : data = p := by injection hd
                rw [h2] at hui
                obtain rfl : ui = ui₀ := by injection hui
                rw [h4] at hpast
                cases hpast
            | false =>
              refine ⟨?_, ?_, ?_, ?_, ?_, ?_⟩
              · simp [getVirtualUser, vuDeleteCond, hvu, hdec, hauth, hui, huit, hpast]
              · intro h
                simp [vuDeleteCond, hvu, hdec, hauth, hui, huit, hpast] at h
              · intro h
                simp at h
              · intro e he hd
                obtain rfl : entry = e := by injection he
                rw [hdec] at hd
                cases hd
              · intro e p he hd hfail
                obtain rfl : entry = e := by injection he
                rw [hdec] at hd
                obtain rfl : data = p := by injection hd
                rcases hfail with hf | hf
                · rw [hf] at hauth
                  cases hauth
                · rw [hui] at hf
                  simp [truthyOpt] at hf
                  rw [hf] at huit
                  cases huit
              · intro e p ui he hd h1 h2 h3 h4
                obtain rfl : entry = e := by injection he
                rw [hdec] at hd
                obtain rfl : data = p := by injection hd
                rw [h2] at hui
                obtain rfl : ui = ui₀ := by injection hui
                simp [getVirtualUser, hvu, hdec, hauth, h2, huit, hpast]

/-- Witness for C10: the expired virtual cookie is deleted with a `none`
result at time 100, while at time 9 (before its `exp` of 50) the same
cookie yields the virtual identity with the jar unchanged. -/
theorem getVirtualUser_delete_frame_witness :
    (getVirtualUser envOn 100 expiredJarW).1 = none ∧
    (getVirtualUser envOn 100 expiredJarW).2 = clearVirtualUser expiredJarW ∧
    (getVirtualUser envOn 9 expiredJarW).1 = some (VirtualUser.mk true true uiExpiredW) ∧
    (getVirtualUser envOn 9 expiredJarW).2 = expiredJarW := by
  refine ⟨((getVirtualUser_delete_frame envOn 100 expiredJarW).2.1 (by decide)).1, ?_, ?_, ?_⟩
  · have h := (getVirtualUser_delete_frame envOn 100 expiredJarW).1
    rw [h]
    decide
  · exact (getVirtualUser_delete_frame envOn 9 expiredJarW).2.2.2.2.2
      (CookieEntry.mk vuExpiredTokenW 2592000) vuExpiredPayloadW uiExpiredW
      (by decide) (by decide) (by decide) (by decide) (by decide) (by decide)
  · have h := (getVirtualUser_delete_frame envOn 9 expiredJarW).1
    rw [h]
    decide

-- ============================================
-- C8: Edge Gate responses for unauthenticated protected requests
-- ============================================

theorem prefix_conflict {a b l : List Char} (ha : a.isPrefixOf l = true)
    (hb : b.isPrefixOf l = true) : a.isPrefixOf b = true ∨ b.isPrefixOf a = true := by
  simp only [ List.isPrefixOf_iff_prefix] at ha hb ⊢
  exact List.prefix_or_prefix_of_prefix ha hb

/-- No pathname matches both a protected and a public route prefix: the two
concrete prefix lists are pairwise incompatible. -/
theorem protected_routes_not_public (p : String)
    (h : matchesRoute p PROTECTED_ROUTES = true) :
    matchesRoute p PUBLIC_ROUTES = false := by
  by_contra hq
  rw [Bool.not_eq_false] at hq
  simp only [matchesRoute, PROTECTED_ROUTES, PUBLIC_ROUTES, jsStartsWith,
    List.any_cons, List.any_nil, Bool.or_eq_true, Bool.or_eq_false_iff] at h hq
  simp only [Bool.false_eq_true, or_false] at h hq
  rcases h with h | h | h | h <;> rcases hq with q | q | q | q | q <;>
    rcases prefix_conflict h q with c | c <;> revert c <;> decide

/-- C8: with enforcement on, for every request whose path matches a
protected prefix and whose session cookies all fail verification, the Edge
Gate returns the 401 JSON body `error = Unauthorized`, `message`,
`code = 401` when the path is under `/api/`, and otherwise redirects to
`/api/auth/sign-in` carrying the original path percent-encoded in the
`redirectTo` query parameter. -/
theorem edge_gate_unauthenticated (env : Env) (now : Int) (jar : CookieJar)
    (pathname : String)
    (henf : shouldEnforceAuth env = true)
    (hprot : matchesRoute pathname PROTECTED_ROUTES = true)
    (hver : verifySession env now jar = false) :
    (jsStartsWith pathname "/api/" = true →
      middleware env now jar pathname
        = MwResponse.unauthorizedJson "Unauthorized" "请先登录" 401 401) ∧
    (jsStartsWith pathname "/api/" = false →
      middleware env now jar pathname
        = MwResponse.redirect ("/api/auth/sign-in?redirectTo=" ++ encodeQueryValue pathname)) := by
  have hpub := protected_routes_not_public pathname hprot
  constructor
  · intro hapi
    simp [middleware, hpub, henf, hprot, hver, hapi]
  · intro hapi
    simp [middleware, hpub, henf, hprot, hver, hapi]

/-- Witness for C8: an unauthenticated request to `/api/chat` receives the
401 JSON response and one to `/chat` is redirected to
`/api/auth/sign-in?redirectTo=%2Fchat`. -/
theorem edge_gate_unauthenticated_witness :
    middleware envOn 0 emptyJar "/api/chat"
      = MwResponse.unauthorizedJson "Unauthorized" "请先登录" 401 401 ∧
    middleware envOn 0 emptyJar "/chat"
      = MwResponse.redirect "/api/auth/sign-in?redirectTo=%2Fchat" := by
  constructor
  · exact (edge_gate_unauthenticated envOn 0 emptyJar "/api/chat" (by decide) (by decide)
      (by decide)).1 (by decide)
  · have h := (edge_gate_unauthenticated envOn 0 emptyJar "/chat" (by decide) (by decide)
      (by decide)).2 (by decide)
    rw [h]
    decide

end PrintApp
